import Mathlib

/-!
Shallow embedding of the Edge Connector core of fly-print-cloud
(Go sources: api/internal/websocket/manager.go, the websocket connection,
message and handler files, api/internal/handlers/print_job_handler.go,
api/internal/database/printer_repository.go, print_job_repository.go,
edge_node_repository.go).

Modelling conventions:
* Go strings are `String`, Go ints are `Int`, instants (time.Time /
  CURRENT_TIMESTAMP) are opaque `Nat` ticks; the `created_at` / `updated_at`
  bookkeeping columns maintained by the database clock are outside the model.
* Wire bytes: `json.Marshal` is total and injective on the concrete structs
  the code serializes, so a channel carries the `Command` value itself in
  place of its JSON encoding.
* Go channels of capacity 256 are `GoChan` (a buffer list plus a closed
  flag) with the exact non-blocking select semantics used by the code:
  a send on a closed channel panics, a receive prefers buffered values,
  a `default` branch fires only when no communication is ready.
* A Go map is an association list whose keys are kept duplicate-free
  (`keysNodup`); pointer identity of a `*Connection` is a numeric id.
* Database tables are lists of records; `WHERE` clauses become filters,
  `QueryRow` takes the first matching row, `UPDATE` rewrites every row
  whose key matches, exactly following each SQL statement's column list.
-/

namespace FlyPrint

/-! ## Wire model (message.go) -/

/-- Upstream printer_status payload (Go struct PrinterStatusData).
The `supplies` map is never read by any handler and is not carried. -/
structure PrinterStatusData where
  printerID : String
  status : String
  queueLength : Int
  errorCode : Option String
deriving DecidableEq, Repr

/-- Upstream job_update payload (Go struct JobUpdateData). -/
structure JobUpdateData where
  jobID : String
  status : String
  progress : Int
  errorMessage : Option String
deriving DecidableEq, Repr

/-- Downstream print_job payload (Go struct PrintJobData). -/
structure PrintJobData where
  jobID : String
  name : String
  printerID : String
  printerName : String
  filePath : String
  fileURL : String
  fileSize : Int
  pageCount : Int
  copies : Int
  paperSize : String
  colorMode : String
  duplexMode : String
  maxRetries : Int
deriving DecidableEq, Repr

/-- Payload of a downstream Command (`data interface\x7b\x7d` in Go); the only
payload the cloud side ever builds is a print-job payload. -/
inductive CmdData where
  | printJob (d : PrintJobData)
deriving DecidableEq, Repr

/-- Downstream command envelope (Go struct Command). -/
structure Command where
  type : String
  commandID : String
  timestamp : Nat
  target : String
  data : CmdData
deriving DecidableEq, Repr

/-- Decoded payload of an upstream Message. The heartbeat payload is only
ever logged by the code, so it carries no fields here; `other` stands for
any JSON value that does not have one of the recognized payload shapes. -/
inductive MsgData where
  | heartbeat
  | printerStatus (d : PrinterStatusData)
  | jobUpdate (d : JobUpdateData)
  | other
deriving DecidableEq, Repr

/-- Upstream message envelope (Go struct Message). -/
structure Message where
  type : String
  nodeID : String
  timestamp : Nat
  data : MsgData
deriving DecidableEq, Repr

/-- Upstream message type tag (Go constant MsgTypeHeartbeat). -/
def msgTypeHeartbeat : String := "edge_heartbeat"

/-- Upstream message type tag (Go constant MsgTypePrinterStatus). -/
def msgTypePrinterStatus : String := "printer_status"

/-- Upstream message type tag (Go constant MsgTypeJobUpdate). -/
def msgTypeJobUpdate : String := "job_update"

/-- Downstream command type tag (Go constant CmdTypePrintJob). -/
def cmdTypePrintJob : String := "print_job"

/-! ## Domain records (models package) -/

/-- Printer record (models.Printer), all columns touched by the printers
repository; latitude/longitude are carried opaquely (the code only copies
them), capabilities is the opaque marshalled JSON column. -/
structure Printer where
  id : String
  name : String
  displayName : String
  model : String
  serialNumber : String
  status : String
  enabled : Bool
  firmwareVersion : String
  portInfo : String
  ipAddress : String
  macAddress : String
  networkConfig : String
  latitude : Option Int
  longitude : Option Int
  location : String
  capabilities : String
  edgeNodeID : String
  queueLength : Int
deriving DecidableEq, Repr

/-- Print job record (models.PrintJob), the columns the print_jobs
repository reads and writes. -/
structure PrintJob where
  id : String
  name : String
  status : String
  priority : Int
  printerID : String
  edgeNodeID : String
  userID : String
  userName : String
  filePath : String
  fileURL : String
  fileSize : Int
  pageCount : Int
  copies : Int
  paperSize : String
  colorMode : String
  duplexMode : String
  startTime : Nat
  endTime : Nat
  errorMessage : String
  retryCount : Int
  maxRetries : Int
deriving DecidableEq, Repr

/-- Edge node record (models.EdgeNode); only the columns touched by the
modelled operations (UpdateHeartbeat) are carried. -/
structure EdgeNode where
  id : String
  status : String
  lastHeartbeat : Nat
deriving DecidableEq, Repr

/-- External persistence state seen by Status Ingestion, plus the ambient
clock used for CURRENT_TIMESTAMP. -/
structure ExtState where
  now : Nat
  nodes : List EdgeNode
  printers : List Printer
  jobs : List PrintJob
deriving DecidableEq, Repr

/-! ## Repositories (database package) -/

/-- PrinterRepository.GetPrinterByNameAndEdgeNode: first row of
`SELECT ... FROM printers WHERE name = $1 AND edge_node_id = $2`. -/
def getPrinterByNameAndEdgeNode : List Printer → String → String → Option Printer
  | [], _, _ => none
  | p :: rest, name, node =>
    if p.name = name ∧ p.edgeNodeID = node then some p
    else getPrinterByNameAndEdgeNode rest name node

/-- PrinterRepository.UpdatePrinter: `UPDATE printers SET name, display_name,
model, serial_number, status, enabled, firmware_version, port_info,
ip_address, mac_address, network_config, latitude, longitude, location,
capabilities, queue_length WHERE id = $1` — every column of the record
except `id` and `edge_node_id`, which the statement does not set. -/
def updatePrinter : List Printer → Printer → List Printer
  | [], _ => []
  | q :: rest, p =>
    (if q.id = p.id then { p with edgeNodeID := q.edgeNodeID } else q)
      :: updatePrinter rest p

/-- PrintJobRepository.GetPrintJobByID: first row of
`SELECT ... FROM print_jobs WHERE id = $1`. -/
def getPrintJobByID : List PrintJob → String → Option PrintJob
  | [], _ => none
  | j :: rest, id => if j.id = id then some j else getPrintJobByID rest id

/-- PrintJobRepository.UpdatePrintJob: `UPDATE print_jobs SET name, status,
priority, file_path, file_size, page_count, copies, paper_size, color_mode,
duplex_mode, start_time, end_time, error_message, retry_count, max_retries
WHERE id = $1` — the statement does not set printer_id, edge_node_id,
user_id, user_name or file_url, so the row keeps its own values there. -/
def updatePrintJob : List PrintJob → PrintJob → List PrintJob
  | [], _ => []
  | q :: rest, j =>
    (if q.id = j.id then
       { j with printerID := q.printerID, edgeNodeID := q.edgeNodeID,
                userID := q.userID, userName := q.userName,
                fileURL := q.fileURL }
     else q) :: updatePrintJob rest j

/-- EdgeNodeRepository.UpdateHeartbeat:
`UPDATE edge_nodes SET last_heartbeat = CURRENT_TIMESTAMP WHERE id = $1`. -/
def updateHeartbeatRepo (nodes : List EdgeNode) (id : String) (now : Nat) :
    List EdgeNode :=
  nodes.map fun n => if n.id = id then { n with lastHeartbeat := now } else n

/-! ## Channels and the connection registry (manager.go, connection.go) -/

/-- Capacity of a connection's outbound queue:
`Send: make(chan []byte, 256)`. -/
def sendCap : Nat := 256

/-- Bounded outbound channel of one connection (`Send chan []byte`); it
carries the commands whose JSON encodings the Go channel holds. -/
structure GoChan where
  buf : List Command
  closed : Bool
deriving DecidableEq, Repr

/-- Errors of the websocket package (errors.go). -/
inductive GoError where
  | nodeNotConnected
  | connectionClosed
deriving DecidableEq, Repr

/-- Outcome of a Go call: a returned `error` value (possibly nil), or a
runtime panic (send on a closed channel). -/
inductive GoResult where
  | ret (e : Option GoError)
  | panicked
deriving DecidableEq, Repr

/-- Identity of one `*Connection` value: its pointer is the numeric `id`,
`nodeID` is its NodeID field. -/
structure ConnRef where
  id : Nat
  nodeID : String
deriving DecidableEq, Repr

/-- State of the ConnectionManager: the node_id → connection map plus the
Send channel of every connection pointer. -/
structure ManagerState where
  connections : List (String × Nat)
  chans : Nat → GoChan

/-- Lookup in the node_id → connection map. -/
def mapLookup : List (String × Nat) → String → Option Nat
  | [], _ => none
  | (k, v) :: rest, key => if k = key then some v else mapLookup rest key

/-- Map assignment `m[key] = v`: replace the entry if the key is present,
append otherwise. -/
def mapSet : List (String × Nat) → String → Nat → List (String × Nat)
  | [], key, v => [(key, v)]
  | (k, w) :: rest, key, v =>
    if k = key then (key, v) :: rest else (k, w) :: mapSet rest key v

/-- Map deletion `delete(m, key)`. -/
def mapErase : List (String × Nat) → String → List (String × Nat)
  | [], _ => []
  | (k, w) :: rest, key =>
    if k = key then rest else (k, w) :: mapErase rest key

/-- Well-formedness of the association list as a Go map: no duplicate keys. -/
@[reducible]
def keysNodup (m : List (String × Nat)) : Prop :=
  (m.map Prod.fst).Nodup

/-- ConnectionManager.registerConnection: if an entry for conn.NodeID
exists, the old connection's Send channel is closed, then the map entry is
set to the new connection.  (Go `close` would panic on an already-closed
channel; the model records the channel as closed.) -/
def registerConnection (m : ManagerState) (c : ConnRef) : ManagerState :=
  match mapLookup m.connections c.nodeID with
  | some old =>
    { connections := mapSet m.connections c.nodeID c.id,
      chans := fun i => if i = old then { m.chans i with closed := true }
                        else m.chans i }
  | none =>
    { connections := mapSet m.connections c.nodeID c.id, chans := m.chans }

/-- ConnectionManager.unregisterConnection: if the map has an entry for
conn.NodeID — whichever connection that entry points at — the entry is
deleted, and conn's own Send channel is then handled by
`select \x7b case <-conn.Send: default: close(conn.Send) \x7d`:
a receive is ready when the buffer is non-empty (it dequeues one message)
or when the channel is closed (it yields a zero value); only otherwise
does the default branch close the channel. -/
def unregisterConnection (m : ManagerState) (c : ConnRef) : ManagerState :=
  match mapLookup m.connections c.nodeID with
  | none => m
  | some _ =>
    let conns := mapErase m.connections c.nodeID
    let ch := m.chans c.id
    if ch.buf = [] then
      if ch.closed then
        { connections := conns, chans := m.chans }
      else
        { connections := conns,
          chans := fun i => if i = c.id then { ch with closed := true }
                            else m.chans i }
    else
      { connections := conns,
        chans := fun i => if i = c.id then { ch with buf := ch.buf.tail }
                          else m.chans i }

/-- ConnectionManager.SendToNode: look the node up; a missing entry returns
ErrNodeNotConnected; otherwise a non-blocking send
`select \x7b case conn.Send <- message: default: \x7d` — a send on a closed
channel is always ready and panics, a send on an open channel is ready
exactly when the buffer is below capacity, and the default branch returns
ErrConnectionClosed (the saturated condition). -/
def sendToNode (m : ManagerState) (nodeID : String) (msg : Command) :
    ManagerState × GoResult :=
  match mapLookup m.connections nodeID with
  | none => (m, .ret (some .nodeNotConnected))
  | some cid =>
    let ch := m.chans cid
    if ch.closed then (m, .panicked)
    else if ch.buf.length < sendCap then
      ({ m with chans := fun i => if i = cid then { ch with buf := ch.buf ++ [msg] }
                                  else m.chans i },
       .ret none)
    else (m, .ret (some .connectionClosed))

/-- Connection.SendCommand: marshal the command (total on this shape, so the
local `err` is nil afterwards) and try a non-blocking send; when the queue
is saturated the source closes c.Send and executes `return err` — and `err`
is nil at that point, so the call reports success. -/
def sendCommand (ch : GoChan) (cmd : Command) : GoChan × GoResult :=
  if ch.closed then (ch, .panicked)
  else if ch.buf.length < sendCap then
    ({ ch with buf := ch.buf ++ [cmd] }, .ret none)
  else
    ({ ch with closed := true }, .ret none)

/-- ConnectionManager.DispatchPrintJob: build the PrintJobData payload from
the job's fields and the printer name. -/
def buildPrintJobData (job : PrintJob) (printerName : String) : PrintJobData :=
  { jobID := job.id
    name := job.name
    printerID := job.printerID
    printerName := printerName
    filePath := job.filePath
    fileURL := job.fileURL
    fileSize := job.fileSize
    pageCount := job.pageCount
    copies := job.copies
    paperSize := job.paperSize
    colorMode := job.colorMode
    duplexMode := job.duplexMode
    maxRetries := job.maxRetries }

/-- ConnectionManager.DispatchPrintJob: build the Command envelope
(type CmdTypePrintJob, CommandID = job.ID, Target = nodeID), marshal it
(total on this shape) and hand it to SendToNode. -/
def dispatchPrintJob (m : ManagerState) (nodeID : String) (job : PrintJob)
    (printerName : String) (now : Nat) : ManagerState × GoResult :=
  let command : Command :=
    { type := cmdTypePrintJob
      commandID := job.id
      timestamp := now
      target := nodeID
      data := .printJob (buildPrintJobData job printerName) }
  sendToNode m nodeID command

/-! ## Status ingestion (connection.go handlers) -/

/-- Connection-side context the handlers read: the NodeID the connection
was registered under. -/
structure ConnCtx where
  nodeID : String
deriving DecidableEq, Repr

/-- Connection.handleHeartbeat: EdgeNodeRepo.UpdateHeartbeat(c.NodeID);
the heartbeat payload itself is only logged. -/
def handleHeartbeat (st : ExtState) (c : ConnCtx) (_msg : Message) : ExtState :=
  { st with nodes := updateHeartbeatRepo st.nodes c.nodeID st.now }

/-- Connection.handlePrinterStatus: re-parse msg.Data as PrinterStatusData
(succeeds exactly when the payload has that shape; otherwise the handler
logs and returns), resolve the node id — the message's node_id unless it
is empty, in which case the connection's NodeID — look the printer up by
(printer name, edge node id), overwrite its status and queue_length with
the event's values and write it back; a missing printer is logged and the
event dropped. -/
def handlePrinterStatus (st : ExtState) (c : ConnCtx) (msg : Message) : ExtState :=
  match msg.data with
  | .printerStatus d =>
    let messageNodeID := if msg.nodeID = "" then c.nodeID else msg.nodeID
    match getPrinterByNameAndEdgeNode st.printers d.printerID messageNodeID with
    | none => st
    | some p =>
      let p2 : Printer := { p with status := d.status, queueLength := d.queueLength }
      { st with printers := updatePrinter st.printers p2 }
  | _ => st

/-- Connection.handleJobUpdate: the body is a TODO that only logs
("TODO: 更新打印任务状态到数据库"); no repository is called and the
external state is returned unchanged. -/
def handleJobUpdate (st : ExtState) (_c : ConnCtx) (_msg : Message) : ExtState :=
  st

/-- Connection.handleMessage: route by msg.Type; an unknown type is logged
and ignored. -/
def handleMessage (st : ExtState) (c : ConnCtx) (msg : Message) : ExtState :=
  if msg.type = msgTypeHeartbeat then handleHeartbeat st c msg
  else if msg.type = msgTypePrinterStatus then handlePrinterStatus st c msg
  else if msg.type = msgTypeJobUpdate then handleJobUpdate st c msg
  else st

/-- One transport read observed by the inbound pump: a read error, a frame
that json.Unmarshal rejects, or a frame decoding to a Message. -/
inductive InFrame where
  | readErr
  | undecodable
  | frame (msg : Message)
deriving DecidableEq, Repr

/-- Whether the inbound pump is still in its read loop (connection Open) or
has exited it (break on a read error, triggering teardown). -/
inductive PumpStatus where
  | running
  | exited
deriving DecidableEq, Repr

/-- Connection.ReadPump read loop over a finite prefix of reads: a read
error breaks the loop; an unmarshal failure logs and continues; a decoded
message is routed through handleMessage and the loop continues. -/
def readPumpRun (st : ExtState) (c : ConnCtx) : List InFrame → ExtState × PumpStatus
  | [] => (st, .running)
  | .readErr :: _ => (st, .exited)
  | .undecodable :: rest => readPumpRun st c rest
  | .frame msg :: rest => readPumpRun (handleMessage st c msg) c rest

/-! ## Connection establishment (handler.go) -/

/-- Fields of the validated OAuth2 token the handler reads. -/
structure OAuth2TokenInfo where
  sub : String
deriving DecidableEq, Repr

/-- WebSocketHandler.extractNodeIDFromTokenInfo: the token subject when it
is non-empty, otherwise the empty string. -/
def extractNodeIDFromTokenInfo (t : OAuth2TokenInfo) : String :=
  if t.sub ≠ "" then t.sub else ""

/-- WebSocketHandler.HandleConnection, node-id resolution step: take
`c.Query("node_id")` first; only when that is empty fall back to the
token-derived id; when both are empty the request is rejected
(HTTP 400 missing node_id, modelled as `none`). -/
def handleConnectionNodeID (queryNodeID : String) (t : OAuth2TokenInfo) :
    Option String :=
  if queryNodeID = "" then
    let fromToken := extractNodeIDFromTokenInfo t
    if fromToken = "" then none else some fromToken
  else some queryNodeID

/-! ## Print-job creation, dispatch phase (print_job_handler.go) -/

/-- PrintJobHandler.CreatePrintJob, dispatch tail: the job has just been
persisted with status "pending"; DispatchPrintJob is called with the
printer's owning edge node; on a non-nil error the handler only logs
("任务已创建，但分发失败，保持pending状态") and the job row is untouched;
on success the job's status is set to "dispatched" and the row updated.
A panic would abort the request before any update. -/
def createPrintJobDispatchPhase (m : ManagerState) (jobs : List PrintJob)
    (job : PrintJob) (printer : Printer) (now : Nat) :
    ManagerState × List PrintJob :=
  match dispatchPrintJob m printer.edgeNodeID job printer.name now with
  | (m2, .ret none) => (m2, updatePrintJob jobs ({ job with status := "dispatched" }))
  | (m2, _) => (m2, jobs)

/-! ## Concrete states used by counterexamples and witnesses -/

/-- Registry state in which node edge-001 is mapped to connection instance 2
(a replacement already happened; instance 1 is the stale connection). -/
def mgrStale : ManagerState :=
  { connections := [("edge-001", 2)], chans := fun _ => { buf := [], closed := false } }

/-- Registry state with a single live connection, instance 1, for edge-001. -/
def mgrOne : ManagerState :=
  { connections := [("edge-001", 1)], chans := fun _ => { buf := [], closed := false } }

/-- Concrete print job used by witnesses. -/
def jobW : PrintJob :=
  { id := "job-123", name := "doc.pdf", status := "pending", priority := 0
    printerID := "pr-1", edgeNodeID := "edge-001", userID := "u-1", userName := "alice"
    filePath := "/tmp/doc.pdf", fileURL := "", fileSize := 10, pageCount := 2
    copies := 1, paperSize := "A4", colorMode := "color", duplexMode := "single"
    startTime := 0, endTime := 0, errorMessage := "", retryCount := 0, maxRetries := 3 }

/-- Concrete printer used by witnesses: name hp-001, owned by edge-001. -/
def printerW : Printer :=
  { id := "pr-1", name := "hp-001", displayName := "", model := "", serialNumber := ""
    status := "ready", enabled := true, firmwareVersion := "", portInfo := ""
    ipAddress := "", macAddress := "", networkConfig := "", latitude := none
    longitude := none, location := "", capabilities := "", edgeNodeID := "edge-001"
    queueLength := 0 }

/-- Concrete external state: one printer, one pending job. -/
def stW : ExtState :=
  { now := 5, nodes := [{ id := "edge-001", status := "online", lastHeartbeat := 0 }]
    printers := [printerW], jobs := [jobW] }

/-- Concrete printer_status payload used by witnesses. -/
def psdW : PrinterStatusData :=
  { printerID := "hp-001", status := "printing", queueLength := 2, errorCode := none }

/-- Concrete printer_status message carrying node id edge-001. -/
def msgPS : Message :=
  { type := "printer_status", nodeID := "edge-001", timestamp := 0
    data := .printerStatus psdW }

/-- Concrete job_update message reporting job-123 printing at 40 percent. -/
def msgJU : Message :=
  { type := "job_update", nodeID := "edge-001", timestamp := 0
    data := .jobUpdate { jobID := "job-123", status := "printing", progress := 40
                         errorMessage := none } }

/-- Concrete heartbeat message. -/
def msgHB : Message :=
  { type := "edge_heartbeat", nodeID := "edge-001", timestamp := 0, data := .heartbeat }

/-- Concrete message of an unrecognized type. -/
def msgUnknown : Message :=
  { type := "mystery_event", nodeID := "edge-001", timestamp := 0, data := .other }

/-- Concrete inbound-frame trace mixing an undecodable frame, an
unknown-type frame, and well-formed frames, with no read error. -/
def framesW : List InFrame :=
  [.undecodable, .frame msgUnknown, .frame msgPS, .undecodable, .frame msgHB,
   .frame msgJU]

/-- Concrete command used to fill queues in the saturation counterexample. -/
def cmdW : Command :=
  { type := "print_job", commandID := "job-123", timestamp := 0, target := "edge-001"
    data := .printJob (buildPrintJobData jobW "hp-001") }

/-- An outbound queue holding exactly 256 pending messages (saturated). -/
def satChan : GoChan := { buf := List.replicate sendCap cmdW, closed := false }

/-! ## Map lemmas -/

theorem mapLookup_mapSet_self (m : List (String × Nat)) (k : String) (v : Nat) :
    mapLookup (mapSet m k v) k = some v := by
  induction m with
  | nil => simp [mapSet, mapLookup]
  | cons e rest ih =>
    obtain ⟨a, b⟩ := e
    by_cases h : a = k
    · simp [mapSet, h, mapLookup]
    · simp [mapSet, h, mapLookup, ih]

theorem mem_keys_mapSet (m : List (String × Nat)) (k : String) (v : Nat)
    (a : String) (ha : a ∈ (mapSet m k v).map Prod.fst) :
    a = k ∨ a ∈ m.map Prod.fst := by
  induction m with
  | nil => simpa [mapSet] using ha
  | cons e rest ih =>
    obtain ⟨b, w⟩ := e
    by_cases h : b = k
    · simp only [mapSet, if_pos h, List.map_cons, List.mem_cons] at ha
      rcases ha with h1 | h2
      · exact Or.inl h1
      · exact Or.inr (by
          simp only [List.map_cons, List.mem_cons]
          exact Or.inr h2)
    · simp only [mapSet, if_neg h, List.map_cons, List.mem_cons] at ha
      rcases ha with h1 | h2
      · exact Or.inr (by
          simp only [List.map_cons, List.mem_cons]
          exact Or.inl h1)
      · rcases ih h2 with h3 | h4
        · exact Or.inl h3
        · exact Or.inr (by
            simp only [List.map_cons, List.mem_cons]
            exact Or.inr h4)

theorem keysNodup_mapSet (m : List (String × Nat)) (k : String) (v : Nat)
    (hm : keysNodup m) : keysNodup (mapSet m k v) := by
  induction m with
  | nil => simp [mapSet, keysNodup]
  | cons e rest ih =>
    obtain ⟨b, w⟩ := e
    simp only [keysNodup, List.map_cons, List.nodup_cons] at hm
    by_cases h : b = k
    · simp only [keysNodup, mapSet, if_pos h, List.map_cons, List.nodup_cons]
      exact ⟨by rw [← h]; exact hm.1, hm.2⟩
    · simp only [keysNodup, mapSet, if_neg h, List.map_cons, List.nodup_cons]
      refine ⟨fun hmem => ?_, ih hm.2⟩
      rcases mem_keys_mapSet rest k v b hmem with h1 | h2
      · exact h h1
      · exact hm.1 h2

theorem mapLookup_eq_none_of_not_mem (m : List (String × Nat)) (k : String)
    (h : k ∉ m.map Prod.fst) : mapLookup m k = none := by
  induction m with
  | nil => rfl
  | cons e rest ih =>
    obtain ⟨b, w⟩ := e
    simp only [List.map_cons, List.mem_cons] at h
    push_neg at h
    have hbk : ¬ b = k := fun hh => h.1 hh.symm
    simp [mapLookup, hbk, ih h.2]

theorem mapLookup_mapErase_eq_none (m : List (String × Nat)) (k : String)
    (hm : keysNodup m) : mapLookup (mapErase m k) k = none := by
  induction m with
  | nil => rfl
  | cons e rest ih =>
    obtain ⟨b, w⟩ := e
    simp only [keysNodup, List.map_cons, List.nodup_cons] at hm
    by_cases h : b = k
    · simp only [mapErase, if_pos h]
      exact mapLookup_eq_none_of_not_mem rest k (by rw [← h]; exact hm.1)
    · simp [mapErase, if_neg h, mapLookup, h, ih hm.2]

theorem keysNodup_functional (m : List (String × Nat)) (k : String) (v w : Nat)
    (hm : keysNodup m) (hv : (k, v) ∈ m) (hw : (k, w) ∈ m) : v = w := by
  induction m with
  | nil => cases hv
  | cons e rest ih =>
    obtain ⟨a, b⟩ := e
    simp only [keysNodup, List.map_cons, List.nodup_cons] at hm
    rcases List.mem_cons.mp hv with h1 | h1 <;> rcases List.mem_cons.mp hw with h2 | h2
    · have h3 : (k, v) = (k, w) := h1.trans h2.symm
      exact congrArg Prod.snd h3
    · exfalso
      apply hm.1
      have ha : a = k := (congrArg Prod.fst h1).symm
      rw [ha]
      exact List.mem_map.mpr ⟨(k, w), h2, rfl⟩
    · exfalso
      apply hm.1
      have ha : a = k := (congrArg Prod.fst h2).symm
      rw [ha]
      exact List.mem_map.mpr ⟨(k, v), h1, rfl⟩
    · exact ih hm.2 h1 h2

/-- Whenever the map has an entry for conn.NodeID, unregisterConnection
deletes that entry (whichever instance it points at). -/
theorem unregister_connections_eq_erase (m : ManagerState) (c : ConnRef) (j : Nat)
    (hj : mapLookup m.connections c.nodeID = some j) :
    (unregisterConnection m c).connections = mapErase m.connections c.nodeID := by
  unfold unregisterConnection
  rw [hj]
  by_cases hb : (m.chans c.id).buf = []
  · by_cases hc : (m.chans c.id).closed <;> simp [hb, hc]
  · simp [hb]

/-! ## Printer repository lemmas -/

theorem getPrinter_mem (l : List Printer) (n e : String) (p : Printer)
    (h : getPrinterByNameAndEdgeNode l n e = some p) : p ∈ l := by
  induction l with
  | nil => cases h
  | cons q rest ih =>
    by_cases hq : q.name = n ∧ q.edgeNodeID = e
    · simp only [getPrinterByNameAndEdgeNode, if_pos hq, Option.some.injEq] at h
      exact List.mem_cons.mpr (Or.inl h.symm)
    · simp only [getPrinterByNameAndEdgeNode, if_neg hq] at h
      exact List.mem_cons.mpr (Or.inr (ih h))

theorem getPrinter_keys (l : List Printer) (n e : String) (p : Printer)
    (h : getPrinterByNameAndEdgeNode l n e = some p) :
    p.name = n ∧ p.edgeNodeID = e := by
  induction l with
  | nil => cases h
  | cons q rest ih =>
    by_cases hq : q.name = n ∧ q.edgeNodeID = e
    · simp only [getPrinterByNameAndEdgeNode, if_pos hq, Option.some.injEq] at h
      rw [← h]; exact hq
    · simp only [getPrinterByNameAndEdgeNode, if_neg hq] at h
      exact ih h

/-- After UpdatePrinter writes back the row p2 (same id, same name, same
edge node id as the row p that a lookup found), the same lookup finds
exactly p2.  Needs distinct printer ids, the primary-key property of the
printers table. -/
theorem getPrinter_after_update (l : List Printer) (n e : String) (p p2 : Printer)
    (hn : (l.map Printer.id).Nodup)
    (hf : getPrinterByNameAndEdgeNode l n e = some p)
    (hid : p2.id = p.id) (hname : p2.name = n) (hedge : p2.edgeNodeID = e) :
    getPrinterByNameAndEdgeNode (updatePrinter l p2) n e = some p2 := by
  induction l with
  | nil => cases hf
  | cons q rest ih =>
    simp only [List.map_cons, List.nodup_cons] at hn
    by_cases hq : q.name = n ∧ q.edgeNodeID = e
    · simp only [getPrinterByNameAndEdgeNode, if_pos hq, Option.some.injEq] at hf
      have hqid : q.id = p2.id := by rw [hid, ← hf]
      have hqe : q.edgeNodeID = p2.edgeNodeID := by rw [hedge]; exact hq.2
      simp only [updatePrinter, if_pos hqid]
      have hrow : ({ p2 with edgeNodeID := q.edgeNodeID } : Printer) = p2 := by
        rw [hqe]
      rw [hrow]
      simp [getPrinterByNameAndEdgeNode, hname, hedge]
    · simp only [getPrinterByNameAndEdgeNode, if_neg hq] at hf
      have hpmem : p ∈ rest := getPrinter_mem rest n e p hf
      have hqid : ¬ q.id = p2.id := by
        rw [hid]
        intro hcontra
        exact hn.1 (List.mem_map.mpr ⟨p, hpmem, hcontra.symm⟩)
      simp only [updatePrinter, if_neg hqid]
      simp only [getPrinterByNameAndEdgeNode, if_neg hq]
      exact ih hn.2 hf

/-- Writing the same row back twice is the same as writing it once. -/
theorem updatePrinter_twice (l : List Printer) (p2 : Printer) :
    updatePrinter (updatePrinter l p2) p2 = updatePrinter l p2 := by
  induction l with
  | nil => rfl
  | cons q rest ih =>
    by_cases hq : q.id = p2.id
    · simp only [updatePrinter, if_pos hq]
      have h1 : (({ p2 with edgeNodeID := q.edgeNodeID } : Printer)).id = p2.id := rfl
      simp only [updatePrinter, h1, ite_self, if_pos, ih]
    · simp only [updatePrinter, if_neg hq, ih]

/-! ## Print-job repository lemma -/

/-- After UpdatePrintJob writes back row j (same id as the row j0 found by
id), looking the id up finds j with the columns the UPDATE statement does
not set kept from j0. -/
theorem getJob_after_update (l : List PrintJob) (j0 j : PrintJob)
    (hf : getPrintJobByID l j0.id = some j0) (hid : j.id = j0.id) :
    getPrintJobByID (updatePrintJob l j) j.id =
      some ({ j with printerID := j0.printerID, edgeNodeID := j0.edgeNodeID, userID := j0.userID, userName := j0.userName, fileURL := j0.fileURL }) := by
  induction l with
  | nil => cases hf
  | cons q rest ih =>
    by_cases hq : q.id = j0.id
    · simp only [getPrintJobByID, if_pos hq, Option.some.injEq] at hf
      have hqj : q.id = j.id := by rw [hid, hq]
      simp only [updatePrintJob, if_pos hqj]
      rw [← hf]
      simp [getPrintJobByID]
    · simp only [getPrintJobByID, if_neg hq] at hf
      have hqj : ¬ q.id = j.id := by rw [hid]; exact hq
      simp only [updatePrintJob, if_neg hqj]
      simp only [getPrintJobByID, if_neg hqj]
      exact ih hf

/-! ## Handler lemmas -/

theorem handleMessage_printer_status (st : ExtState) (c : ConnCtx) (msg : Message)
    (htype : msg.type = msgTypePrinterStatus) :
    handleMessage st c msg = handlePrinterStatus st c msg := by
  unfold handleMessage
  rw [htype]
  simp [msgTypePrinterStatus, msgTypeHeartbeat]

theorem handleMessage_job_update (st : ExtState) (c : ConnCtx) (msg : Message)
    (htype : msg.type = msgTypeJobUpdate) :
    handleMessage st c msg = st := by
  unfold handleMessage
  rw [htype]
  simp [msgTypeJobUpdate, msgTypeHeartbeat, msgTypePrinterStatus, handleJobUpdate]

/-- Reduction of handlePrinterStatus when the lookup misses. -/
theorem hps_of_lookup_none (st : ExtState) (c : ConnCtx) (msg : Message)
    (d : PrinterStatusData) (hd : msg.data = .printerStatus d)
    (hf : getPrinterByNameAndEdgeNode st.printers d.printerID
        (if msg.nodeID = "" then c.nodeID else msg.nodeID) = none) :
    handlePrinterStatus st c msg = st := by
  unfold handlePrinterStatus
  rw [hd]
  simp only [hf]

/-- Reduction of handlePrinterStatus when the lookup finds the row p. -/
theorem hps_of_lookup_some (st : ExtState) (c : ConnCtx) (msg : Message)
    (d : PrinterStatusData) (p : Printer) (hd : msg.data = .printerStatus d)
    (hf : getPrinterByNameAndEdgeNode st.printers d.printerID
        (if msg.nodeID = "" then c.nodeID else msg.nodeID) = some p) :
    handlePrinterStatus st c msg =
      { st with printers := updatePrinter st.printers ({ p with status := d.status, queueLength := d.queueLength }) } := by
  unfold handlePrinterStatus
  rw [hd]
  simp only [hf]

/-- Reduction of handlePrinterStatus on a payload that does not have the
printer-status shape. -/
theorem hps_of_other_payload (st : ExtState) (c : ConnCtx) (msg : Message)
    (hd : ∀ d : PrinterStatusData, msg.data ≠ .printerStatus d) :
    handlePrinterStatus st c msg = st := by
  unfold handlePrinterStatus
  cases h : msg.data with
  | printerStatus d => exact absurd h (hd d)
  | heartbeat => rfl
  | jobUpdate d => rfl
  | other => rfl

theorem handlePrinterStatus_idem (st : ExtState) (c : ConnCtx) (msg : Message)
    (hn : (st.printers.map Printer.id).Nodup) :
    handlePrinterStatus (handlePrinterStatus st c msg) c msg =
      handlePrinterStatus st c msg := by
  cases hd : msg.data with
  | printerStatus d =>
    cases hf : getPrinterByNameAndEdgeNode st.printers d.printerID
        (if msg.nodeID = "" then c.nodeID else msg.nodeID) with
    | none =>
      rw [hps_of_lookup_none st c msg d hd hf]
      rw [hps_of_lookup_none st c msg d hd hf]
    | some p =>
      have h1 := hps_of_lookup_some st c msg d p hd hf
      rw [h1]
      have hkeys := getPrinter_keys st.printers d.printerID
        (if msg.nodeID = "" then c.nodeID else msg.nodeID) p hf
      have hf2 : getPrinterByNameAndEdgeNode
          (updatePrinter st.printers ({ p with status := d.status, queueLength := d.queueLength }))
          d.printerID (if msg.nodeID = "" then c.nodeID else msg.nodeID) =
          some ({ p with status := d.status, queueLength := d.queueLength }) :=
        getPrinter_after_update st.printers d.printerID
          (if msg.nodeID = "" then c.nodeID else msg.nodeID) p
          ({ p with status := d.status, queueLength := d.queueLength })
          hn hf rfl hkeys.1 hkeys.2
      have h2 := hps_of_lookup_some
        ({ st with printers := updatePrinter st.printers ({ p with status := d.status, queueLength := d.queueLength }) })
        c msg d ({ p with status := d.status, queueLength := d.queueLength }) hd hf2
      rw [h2]
      have hcollapse :
          ({ { p with status := d.status, queueLength := d.queueLength } with status := d.status, queueLength := d.queueLength } : Printer)
            = { p with status := d.status, queueLength := d.queueLength } := rfl
      have hXY :
          updatePrinter (updatePrinter st.printers ({ p with status := d.status, queueLength := d.queueLength }))
            ({ { p with status := d.status, queueLength := d.queueLength } with status := d.status, queueLength := d.queueLength })
          = updatePrinter st.printers ({ p with status := d.status, queueLength := d.queueLength }) := by
        rw [hcollapse]
        exact updatePrinter_twice _ _
      exact congrArg (fun l => { st with printers := l }) hXY
  | heartbeat =>
    have h1 : ∀ s : ExtState, handlePrinterStatus s c msg = s := fun s =>
      hps_of_other_payload s c msg (by rw [hd]; intro d h; cases h)
    rw [h1, h1]
  | jobUpdate d =>
    have h1 : ∀ s : ExtState, handlePrinterStatus s c msg = s := fun s =>
      hps_of_other_payload s c msg (by rw [hd]; intro d2 h; cases h)
    rw [h1, h1]
  | other =>
    have h1 : ∀ s : ExtState, handlePrinterStatus s c msg = s := fun s =>
      hps_of_other_payload s c msg (by rw [hd]; intro d h; cases h)
    rw [h1, h1]

/-! ## Claim theorems -/

/-- Claim C1, counterexample: in a registry whose map points node edge-001
at connection instance 2, unregistering the stale instance 1 (same node id,
different instance) is claimed to be a no-op — but unregisterConnection
deletes the map entry anyway, removing the newer connection 2. -/
theorem unregister_stale_counterexample :
    mapLookup mgrStale.connections "edge-001" = some 2 ∧
    (2 : Nat) ≠ 1 ∧
    mapLookup (unregisterConnection mgrStale ⟨1, "edge-001"⟩).connections "edge-001"
      = none := by
  decide

/-- Claim C1, amended: Unregister(c) removes the map entry for c's node id
whenever any entry exists for that node id, regardless of which connection
instance the entry points at; a stale unregister from an already-replaced
connection therefore deletes the newer connection's entry. -/
theorem unregister_removes_any_entry (m : ManagerState) (c : ConnRef) (j : Nat)
    (hm : keysNodup m.connections)
    (hj : mapLookup m.connections c.nodeID = some j) :
    mapLookup (unregisterConnection m c).connections c.nodeID = none := by
  rw [unregister_connections_eq_erase m c j hj]
  exact mapLookup_mapErase_eq_none m.connections c.nodeID hm

/-- Witness for the amended C1 theorem at the concrete stale-unregister
state. -/
theorem unregister_removes_any_entry_witness :
    keysNodup mgrStale.connections ∧
    mapLookup mgrStale.connections "edge-001" = some 2 ∧
    mapLookup (unregisterConnection mgrStale ⟨1, "edge-001"⟩).connections "edge-001"
      = none :=
  ⟨by decide, by decide,
   unregister_removes_any_entry mgrStale ⟨1, "edge-001"⟩ 2 (by decide) (by decide)⟩

/-- Claim C2: registerConnection keeps the map at most one entry per node
id (duplicate-free keys, hence functional), maps conn.NodeID to the new
instance, and closes the outbound queue of whichever instance previously
held the entry. -/
theorem register_replaces_and_closes_old (m : ManagerState) (c : ConnRef)
    (hm : keysNodup m.connections) :
    keysNodup (registerConnection m c).connections ∧
    mapLookup (registerConnection m c).connections c.nodeID = some c.id ∧
    (∀ N v w, (N, v) ∈ (registerConnection m c).connections →
       (N, w) ∈ (registerConnection m c).connections → v = w) ∧
    (∀ old, mapLookup m.connections c.nodeID = some old →
       ((registerConnection m c).chans old).closed = true) := by
  have hconn : (registerConnection m c).connections = mapSet m.connections c.nodeID c.id := by
    unfold registerConnection
    cases h : mapLookup m.connections c.nodeID <;> rfl
  refine ⟨?_, ?_, ?_, ?_⟩
  · rw [hconn]; exact keysNodup_mapSet m.connections c.nodeID c.id hm
  · rw [hconn]; exact mapLookup_mapSet_self m.connections c.nodeID c.id
  · intro N v w hv hw
    rw [hconn] at hv hw
    exact keysNodup_functional _ N v w (keysNodup_mapSet m.connections c.nodeID c.id hm) hv hw
  · intro old hold
    unfold registerConnection
    rw [hold]
    simp

/-- Witness for C2: replacing the connection for edge-001 (old instance 1,
new instance 2) yields a map pointing at 2 and closes instance 1's queue. -/
theorem register_replaces_and_closes_old_witness :
    keysNodup mgrOne.connections ∧
    mapLookup (registerConnection mgrOne ⟨2, "edge-001"⟩).connections "edge-001" = some 2 ∧
    ((registerConnection mgrOne ⟨2, "edge-001"⟩).chans 1).closed = true :=
  ⟨by decide,
   (register_replaces_and_closes_old mgrOne ⟨2, "edge-001"⟩ (by decide)).2.1,
   (register_replaces_and_closes_old mgrOne ⟨2, "edge-001"⟩ (by decide)).2.2.2 1 (by decide)⟩

set_option maxRecDepth 4096 in
/-- Claim C3, code bug: Connection.SendCommand on a connection whose open
outbound queue already holds 256 pending messages closes the queue and
returns a nil error — it reports success instead of the claimed
connection-saturated failure. -/
theorem send_command_saturated_returns_nil :
    satChan.buf.length = sendCap ∧
    satChan.closed = false ∧
    sendCommand satChan cmdW = ({ satChan with closed := true }, .ret none) := by
  refine ⟨by simp [satChan], rfl, ?_⟩
  have hlen : ¬ satChan.buf.length < sendCap := by simp [satChan]
  unfold sendCommand
  simp only [satChan, hlen]
  simp [satChan]

/-- Claim C4, counterexample: when both the node_id query parameter and a
non-empty credential subject are present, HandleConnection registers the
query-parameter value, not the credential-derived one. -/
theorem node_id_precedence_counterexample :
    handleConnectionNodeID "edge-query" ⟨"edge-cred"⟩ = some "edge-query" ∧
    handleConnectionNodeID "edge-query" ⟨"edge-cred"⟩ ≠ some "edge-cred" := by
  decide

/-- Claim C4, amended: the node id used to register the connection is the
explicit node_id query parameter whenever it is non-empty; the
credential's subject is used only as a fallback when the query parameter
is empty, and the request is rejected when both are empty. -/
theorem node_id_query_precedence (q : String) (t : OAuth2TokenInfo) :
    (q ≠ "" → handleConnectionNodeID q t = some q) ∧
    (q = "" → t.sub ≠ "" → handleConnectionNodeID q t = some t.sub) ∧
    (q = "" → t.sub = "" → handleConnectionNodeID q t = none) := by
  refine ⟨fun hq => ?_, fun hq hs => ?_, fun hq hs => ?_⟩
  · simp [handleConnectionNodeID, hq]
  · simp [handleConnectionNodeID, hq, extractNodeIDFromTokenInfo, hs]
  · simp [handleConnectionNodeID, hq, extractNodeIDFromTokenInfo, hs]

/-- Witness for the amended C4 theorem: query precedence with both values
present, and token fallback with an empty query parameter. -/
theorem node_id_query_precedence_witness :
    ("edge-q" ≠ "" ∧ handleConnectionNodeID "edge-q" ⟨"edge-t"⟩ = some "edge-q") ∧
    (("" : String) = "" ∧ "edge-t" ≠ "" ∧
      handleConnectionNodeID "" ⟨"edge-t"⟩ = some "edge-t") :=
  ⟨⟨by decide, (node_id_query_precedence "edge-q" ⟨"edge-t"⟩).1 (by decide)⟩,
   ⟨rfl, by decide, (node_id_query_precedence "" ⟨"edge-t"⟩).2.1 rfl (by decide)⟩⟩

/-- Claim C5, code bug: a decoded job_update event for job-123 with status
"printing" leaves the job store untouched — handleJobUpdate is a logging
stub, so the job's stored status stays "pending" and never becomes
"printing". -/
theorem job_update_event_not_persisted :
    handleMessage stW ⟨"edge-001"⟩ msgJU = stW ∧
    (getPrintJobByID (handleMessage stW ⟨"edge-001"⟩ msgJU).jobs "job-123").map
      PrintJob.status = some "pending" ∧
    (getPrintJobByID (handleMessage stW ⟨"edge-001"⟩ msgJU).jobs "job-123").map
      PrintJob.status ≠ some "printing" := by
  refine ⟨?_, by decide, by decide⟩
  rfl

/-- Claim C6: a decode failure or an envelope of unrecognized type never
terminates the inbound pump — after any sequence of frames containing no
transport read error, the read loop is still running (connection Open). -/
theorem read_pump_survives_bad_frames (st : ExtState) (c : ConnCtx)
    (frames : List InFrame) (h : InFrame.readErr ∉ frames) :
    (readPumpRun st c frames).2 = PumpStatus.running := by
  induction frames generalizing st with
  | nil => rfl
  | cons f rest ih =>
    cases f with
    | readErr => exact absurd (List.mem_cons_self _ _) h
    | undecodable => exact ih st (fun hm => h (List.mem_cons_of_mem _ hm))
    | frame m => exact ih (handleMessage st c m) (fun hm => h (List.mem_cons_of_mem _ hm))

/-- Witness for C6 on a concrete mixed trace (undecodable frames, an
unknown type, valid events): the pump is still running afterwards. -/
theorem read_pump_survives_bad_frames_witness :
    InFrame.readErr ∉ framesW ∧
    (readPumpRun stW ⟨"edge-001"⟩ framesW).2 = PumpStatus.running :=
  ⟨by decide, read_pump_survives_bad_frames stW ⟨"edge-001"⟩ framesW (by decide)⟩

/-- Claim C7: in the dispatch phase of CreatePrintJob, a failed delivery
leaves the job store untouched (the job keeps its prior "pending" status);
only a successful delivery sets the stored status to "dispatched". -/
theorem create_print_job_dispatch_outcome (m : ManagerState) (jobs : List PrintJob)
    (job : PrintJob) (printer : Printer) (now : Nat)
    (hjob : getPrintJobByID jobs job.id = some job)
    (hpend : job.status = "pending") :
    ((dispatchPrintJob m printer.edgeNodeID job printer.name now).2 ≠ GoResult.ret none →
      (createPrintJobDispatchPhase m jobs job printer now).2 = jobs ∧
      (getPrintJobByID (createPrintJobDispatchPhase m jobs job printer now).2 job.id).map
        PrintJob.status = some "pending") ∧
    ((dispatchPrintJob m printer.edgeNodeID job printer.name now).2 = GoResult.ret none →
      (getPrintJobByID (createPrintJobDispatchPhase m jobs job printer now).2 job.id).map
        PrintJob.status = some "dispatched") := by
  rcases hdp : dispatchPrintJob m printer.edgeNodeID job printer.name now with ⟨m2, r⟩
  have hphase : createPrintJobDispatchPhase m jobs job printer now =
      (match (m2, r) with
       | (m3, GoResult.ret none) => (m3, updatePrintJob jobs ({ job with status := "dispatched" }))
       | (m3, _) => (m3, jobs)) := by
    unfold createPrintJobDispatchPhase
    rw [hdp]
  rw [hphase]
  cases r with
  | ret e =>
    cases e with
    | none =>
      refine ⟨fun hne => absurd rfl hne, fun _ => ?_⟩
      simp only
      have hid : ({ job with status := "dispatched" } : PrintJob).id = job.id := rfl
      have hupd := getJob_after_update jobs job ({ job with status := "dispatched" }) hjob rfl
      rw [hid] at hupd
      rw [hupd]
      rfl
    | some err =>
      refine ⟨fun _ => ⟨rfl, ?_⟩, fun heq => by cases heq⟩
      simp [hjob, hpend]
  | panicked =>
    refine ⟨fun _ => ⟨rfl, ?_⟩, fun heq => by cases heq⟩
    simp [hjob, hpend]

/-- Witness for C7: with edge-001 connected and its queue open, dispatch
succeeds and the stored job-123 row reads "dispatched". -/
theorem create_print_job_dispatch_outcome_witness :
    getPrintJobByID stW.jobs jobW.id = some jobW ∧
    jobW.status = "pending" ∧
    (getPrintJobByID (createPrintJobDispatchPhase mgrOne stW.jobs jobW printerW 7).2 jobW.id).map
      PrintJob.status = some "dispatched" :=
  ⟨by decide, rfl,
   (create_print_job_dispatch_outcome mgrOne stW.jobs jobW printerW 7 (by decide) rfl).2
     (by decide)⟩

/-- Claim C8: applying the same printer_status event twice through the
message handler leaves the stored printer state exactly as after one
application (requires the printers table's distinct primary keys). -/
theorem printer_status_idempotent (st : ExtState) (c : ConnCtx) (msg : Message)
    (htype : msg.type = msgTypePrinterStatus)
    (hn : (st.printers.map Printer.id).Nodup) :
    handleMessage (handleMessage st c msg) c msg = handleMessage st c msg := by
  have hroute : ∀ s : ExtState, handleMessage s c msg = handlePrinterStatus s c msg :=
    fun s => handleMessage_printer_status s c msg htype
  simp only [hroute]
  exact handlePrinterStatus_idem st c msg hn

/-- Witness for C8 on a concrete state: re-applying the hp-001 status
event changes nothing. -/
theorem printer_status_idempotent_witness :
    (msgPS.type = msgTypePrinterStatus ∧ (stW.printers.map Printer.id).Nodup) ∧
    handleMessage (handleMessage stW ⟨"edge-001"⟩ msgPS) ⟨"edge-001"⟩ msgPS =
      handleMessage stW ⟨"edge-001"⟩ msgPS :=
  ⟨⟨rfl, by decide⟩, printer_status_idempotent stW ⟨"edge-001"⟩ msgPS rfl (by decide)⟩

/-- Claim C9: a successful dispatch enqueues exactly one command on the
target node's connection, and that command has type print_job, command id
equal to the job's own id, target equal to the node, and the print-job
payload built from the job and printer name; nothing else in the registry
changes. -/
theorem dispatch_builds_print_job_command (m : ManagerState) (nodeID : String)
    (job : PrintJob) (printerName : String) (now : Nat) (cid : Nat)
    (hc : mapLookup m.connections nodeID = some cid)
    (hopen : (m.chans cid).closed = false)
    (hroom : (m.chans cid).buf.length < sendCap) :
    ∃ cmd : Command,
      (dispatchPrintJob m nodeID job printerName now).2 = GoResult.ret none ∧
      ((dispatchPrintJob m nodeID job printerName now).1.chans cid).buf =
        (m.chans cid).buf ++ [cmd] ∧
      (∀ i, i ≠ cid → (dispatchPrintJob m nodeID job printerName now).1.chans i = m.chans i) ∧
      (dispatchPrintJob m nodeID job printerName now).1.connections = m.connections ∧
      cmd.type = cmdTypePrintJob ∧ cmd.commandID = job.id ∧ cmd.target = nodeID ∧
      cmd.timestamp = now ∧
      cmd.data = CmdData.printJob (buildPrintJobData job printerName) := by
  refine ⟨{ type := cmdTypePrintJob, commandID := job.id, timestamp := now,
            target := nodeID, data := .printJob (buildPrintJobData job printerName) },
          ?_, ?_, ?_, ?_, rfl, rfl, rfl, rfl, rfl⟩
  · unfold dispatchPrintJob sendToNode
    simp only [hc, hopen, Bool.false_eq_true, if_false, hroom, if_true, if_pos hroom]
  · unfold dispatchPrintJob sendToNode
    simp only [hc, hopen, Bool.false_eq_true, if_false, hroom, if_true, if_pos hroom]
  · intro i hi
    unfold dispatchPrintJob sendToNode
    simp only [hc, hopen, Bool.false_eq_true, if_false, hroom, if_true, if_pos hroom]
    simp [hi]
  · unfold dispatchPrintJob sendToNode
    simp only [hc, hopen, Bool.false_eq_true, if_false, hroom, if_true, if_pos hroom]

/-- Witness for C9 at the concrete one-connection registry. -/
theorem dispatch_builds_print_job_command_witness :
    mapLookup mgrOne.connections "edge-001" = some 1 ∧
    (mgrOne.chans 1).closed = false ∧
    (mgrOne.chans 1).buf.length < sendCap ∧
    (∃ cmd : Command,
      (dispatchPrintJob mgrOne "edge-001" jobW "hp-001" 7).2 = GoResult.ret none ∧
      ((dispatchPrintJob mgrOne "edge-001" jobW "hp-001" 7).1.chans 1).buf =
        (mgrOne.chans 1).buf ++ [cmd] ∧
      (∀ i, i ≠ 1 → (dispatchPrintJob mgrOne "edge-001" jobW "hp-001" 7).1.chans i = mgrOne.chans i) ∧
      (dispatchPrintJob mgrOne "edge-001" jobW "hp-001" 7).1.connections = mgrOne.connections ∧
      cmd.type = cmdTypePrintJob ∧ cmd.commandID = jobW.id ∧ cmd.target = "edge-001" ∧
      cmd.timestamp = 7 ∧
      cmd.data = CmdData.printJob (buildPrintJobData jobW "hp-001")) :=
  ⟨by decide, rfl, by decide,
   dispatch_builds_print_job_command mgrOne "edge-001" jobW "hp-001" 7 1
     (by decide) rfl (by decide)⟩

/-- Claim C10: a printer_status event carrying a non-empty node_id resolves
the printer against that embedded node id — independent of which
connection delivered it, and the updated row belongs to the embedded node
id; only when the embedded node_id is empty does the handler fall back to
the connection's node id. -/
theorem printer_status_uses_message_node_id (st : ExtState) (msg : Message)
    (d : PrinterStatusData) (hd : msg.data = .printerStatus d) :
    (msg.nodeID ≠ "" → ∀ c c' : ConnCtx,
       handlePrinterStatus st c msg = handlePrinterStatus st c' msg) ∧
    (msg.nodeID ≠ "" → ∀ (c : ConnCtx) (p : Printer),
       getPrinterByNameAndEdgeNode st.printers d.printerID msg.nodeID = some p →
       p.edgeNodeID = msg.nodeID ∧
       (handlePrinterStatus st c msg).printers =
         updatePrinter st.printers ({ p with status := d.status, queueLength := d.queueLength })) ∧
    (msg.nodeID = "" → ∀ c : ConnCtx,
       handlePrinterStatus st c msg =
         handlePrinterStatus st c ({ msg with nodeID := c.nodeID })) := by
  refine ⟨fun hne c c' => ?_, fun hne c p hf => ?_, fun he c => ?_⟩
  · unfold handlePrinterStatus
    rw [hd]
    simp only [if_neg hne]
  · have hif : (if msg.nodeID = "" then c.nodeID else msg.nodeID) = msg.nodeID :=
      if_neg hne
    have hf2 : getPrinterByNameAndEdgeNode st.printers d.printerID
        (if msg.nodeID = "" then c.nodeID else msg.nodeID) = some p := by
      rw [hif]; exact hf
    refine ⟨(getPrinter_keys _ _ _ _ hf).2, ?_⟩
    rw [hps_of_lookup_some st c msg d p hd hf2]
  · unfold handlePrinterStatus
    rw [hd]
    simp [he]

/-- Witness for C10: the hp-001 event carrying node_id edge-001 updates
the same printer row no matter which connection (edge-XYZ or edge-001)
delivered it, and the row belongs to the embedded node id. -/
theorem printer_status_uses_message_node_id_witness :
    msgPS.data = MsgData.printerStatus psdW ∧
    msgPS.nodeID ≠ "" ∧
    handlePrinterStatus stW ⟨"edge-XYZ"⟩ msgPS = handlePrinterStatus stW ⟨"edge-001"⟩ msgPS ∧
    printerW.edgeNodeID = msgPS.nodeID ∧
    (handlePrinterStatus stW ⟨"edge-XYZ"⟩ msgPS).printers =
      updatePrinter stW.printers ({ printerW with status := "printing", queueLength := 2 }) :=
  ⟨rfl, by decide,
   (printer_status_uses_message_node_id stW msgPS psdW rfl).1 (by decide)
     ⟨"edge-XYZ"⟩ ⟨"edge-001"⟩,
   ((printer_status_uses_message_node_id stW msgPS psdW rfl).2.1 (by decide)
     ⟨"edge-XYZ"⟩ printerW (by decide)).1,
   ((printer_status_uses_message_node_id stW msgPS psdW rfl).2.1 (by decide)
     ⟨"edge-XYZ"⟩ printerW (by decide)).2⟩

end FlyPrint
